import Mathlib

/-!
Shallow embedding of the acoustic synthesis engine of the Ocean Debris
Sonification Project, `src/services/audioService.ts`.

Modelling conventions:
* JavaScript numbers are modelled as real numbers (`ℝ`).
* `Math.random()` draws are passed in explicitly as parameters; a faithful
  draw lies in `[0,1)`, and theorems that need it assume `0 ≤ r` / `r ≤ 1`.
* The engine state tracked by the `AudioService` class is the record
  `AudioState`: whether the `AudioContext` and graph exist (`ctxCreated`,
  the code's `this.ctx`/`this.globalFilter`/`this.masterGain` are all
  created together in `initialize`), the `oscillators`, `activeNodes` and
  `baseFrequencies` arrays, the `collisionTimer` handle and the stored
  `currentDissonanceMultiplier`.  Audio-parameter writes
  (`setValueAtTime`/`setTargetAtTime`) are modelled by storing the target
  value in the corresponding node record or state field.
* `playTelemetrySound` and `playClick` build only fire-and-forget nodes that
  are never pushed into `oscillators`/`activeNodes` (the source relies on
  garbage collection for them), so they contribute nothing to the tracked
  state; `startMicroCollisions`' visible effect on the tracked state is the
  `collisionTimer` it arms.
-/

namespace AudioService

noncomputable section

/-- `DebrisLevel` from `src/types.ts`. -/
inductive DebrisLevel
  | LOW
  | MODERATE
  | HIGH
  | CRITICAL
deriving DecidableEq

/-- The oscillator wave types the service assigns (`OscillatorType` values
used in `audioService.ts`: `sine`, `triangle`, `sawtooth`). -/
inductive Wave
  | sine
  | triangle
  | sawtooth
deriving DecidableEq

/-- Which call site created an oscillator node inside `playData`: the
per-voice low-frequency modulator (`lfo`) or the audible tone (`osc`). -/
inductive OscKind
  | lfo
  | tone
deriving DecidableEq

/-- An `OscillatorNode` as the engine configures it: its wave type, the value
written to its `frequency` param, the value written to its `detune` param,
and whether it is still connected to the graph. A fresh `OscillatorNode` has
type `sine` and detune `0`. -/
structure OscNode where
  kind : OscKind
  wave : Wave
  freq : ℝ
  detune : ℝ
  connected : Bool

/-- The roles of the non-oscillator nodes `playData` pushes into
`activeNodes`: the LFO depth gain, the voice envelope gain, the stereo
panner. -/
inductive NodeRole
  | lfoGain
  | gain
  | panner
deriving DecidableEq

/-- A non-oscillator `AudioNode` tracked in `activeNodes`, with the one
scalar the code writes to it (LFO depth, envelope target, or pan position). -/
structure AudioNode where
  role : NodeRole
  value : ℝ
  connected : Bool

/-- The fields of `DebrisLocation` (`src/types.ts`) that `audioService.ts`
reads: `coordinates[1]` (the latitude), `density`, and `level`. -/
structure DebrisLocation where
  latitude : ℝ
  density : ℝ
  level : DebrisLevel

/-- The synthesis profile `playData` derives from the severity tier
(`audioService.ts` lines 163-188): oscillator count, waveform, inherent
dissonance, modulation speed. -/
structure SynthesisProfile where
  oscillatorCount : ℕ
  waveType : Wave
  inherentDissonance : ℝ
  modulationSpeed : ℝ

/-- The severity-tier lookup of `playData` (lines 168-188; the `else`
branch is CRITICAL). -/
def profileFor : DebrisLevel → SynthesisProfile
  | DebrisLevel.LOW => ⟨3, Wave.sine, 1.001, 0.05⟩
  | DebrisLevel.MODERATE => ⟨4, Wave.triangle, 1.02, 0.5⟩
  | DebrisLevel.HIGH => ⟨6, Wave.sawtooth, 1.10, 2⟩
  | DebrisLevel.CRITICAL => ⟨8, Wave.sawtooth, 1.25, 8⟩

/-- The `Math.random()` draws one `playData` call consumes, indexed by voice:
`rv i` the frequency-variance draw, `rl i` the LFO-rate draw, `rp i` the pan
draw; `rf i`/`rr i` the detune-flux and LFO-rate draws of the embedded
`setDissonance` reapplication; `rj` the first collision-interval jitter. -/
structure RandomStream where
  rv : ℕ → ℝ
  rl : ℕ → ℝ
  rp : ℕ → ℝ
  rf : ℕ → ℝ
  rr : ℕ → ℝ
  rj : ℝ

/-- The mutable state of the `AudioService` singleton. -/
@[ext]
structure AudioState where
  ctxCreated : Bool
  masterGainValue : ℝ
  filterFrequency : ℝ
  oscillators : List OscNode
  activeNodes : List AudioNode
  baseFrequencies : List ℝ
  collisionTimer : Option ℝ
  currentDissonanceMultiplier : ℝ

/-- The state of the module-level `audioService` instance before any call:
no context, empty arrays, no timer, multiplier 1 (the field initializers). -/
def initialState : AudioState :=
  { ctxCreated := false, masterGainValue := 0, filterFrequency := 0,
    oscillators := [], activeNodes := [], baseFrequencies := [],
    collisionTimer := none, currentDissonanceMultiplier := 1 }

/-- `initialize()` (lines 22-64): on first call builds the graph (master
gain at 0.5, low-pass filter open at 20000 Hz); on later calls only resumes
a suspended context, which has no modelled effect. -/
def initService (s : AudioState) : AudioState :=
  if s.ctxCreated then s
  else { s with ctxCreated := true, masterGainValue := 0.5, filterFrequency := 20000 }

/-- `setVolume` (lines 66-70): ramps the master gain toward `val` when the
graph exists, otherwise does nothing. -/
def setVolume (val : ℝ) (s : AudioState) : AudioState :=
  if s.ctxCreated then { s with masterGainValue := val } else s

/-- The cutoff mapping of `setFilterFrequency` (line 78):
`minFreq * (maxFreq / minFreq) ^ normalizedVal` with `minFreq = 100`,
`maxFreq = 20000` (real exponentiation models `Math.pow`). -/
def filterFreqOf (normalizedVal : ℝ) : ℝ := 100 * (20000 / 100) ^ normalizedVal

/-- `setFilterFrequency` (lines 73-81): ramps the global filter cutoff
toward `filterFreqOf normalizedVal` when the graph exists. -/
def setFilterFrequency (normalizedVal : ℝ) (s : AudioState) : AudioState :=
  if s.ctxCreated then { s with filterFrequency := filterFreqOf normalizedVal } else s

/-- `Math.pow(multiplier, 2.5) - 1` (line 110). -/
def intensity (multiplier : ℝ) : ℝ := multiplier ^ (2.5 : ℝ) - 1

/-- `baseDetuneSpread` (line 107). -/
def baseDetuneSpread : ℝ := 50

/-- `detuneAmount` for the voice at ensemble position `voiceIndex`
(line 113): `(voiceIndex + 0.5) * baseDetuneSpread * intensity`. -/
def detuneAmount (multiplier : ℝ) (voiceIndex : ℕ) : ℝ :=
  ((voiceIndex : ℝ) + 0.5) * baseDetuneSpread * intensity multiplier

/-- `randomFlux` (line 116): `(Math.random() * 20 - 10) * intensity`, with
the draw `r` passed in. -/
def randomFlux (multiplier r : ℝ) : ℝ := (r * 20 - 10) * intensity multiplier

/-- The detune target `setDissonance` writes to a tone oscillator
(line 118): `detuneAmount + randomFlux`. -/
def detuneTarget (multiplier : ℝ) (voiceIndex : ℕ) (r : ℝ) : ℝ :=
  detuneAmount multiplier voiceIndex + randomFlux multiplier r

/-- `newLfoRate` (line 124): `0.5 + Math.random() * 8 * (multiplier - 1)`,
with the draw `r` passed in. -/
def newLfoRate (multiplier r : ℝ) : ℝ := 0.5 + r * 8 * (multiplier - 1)

/-- The update `setDissonance` applies to a tone oscillator: write the
detune target (line 118). -/
def oscUpd (multiplier r : ℝ) (voiceIndex : ℕ) (o : OscNode) : OscNode :=
  { o with detune := detuneTarget multiplier voiceIndex r }

/-- The update `setDissonance` applies to an LFO: when `multiplier > 1.2`
write the randomized rate (lines 122-126), otherwise leave it untouched. -/
def lfoUpd (multiplier r : ℝ) (o : OscNode) : OscNode :=
  if 1.2 < multiplier then { o with freq := newLfoRate multiplier r } else o

/-- The pair loop of `setDissonance` (lines 94-127): walk the array
`[LFO, Osc, LFO, Osc, ...]` two at a time (`voiceIndex = i / 2`), updating
each complete pair; a trailing unpaired element is skipped (`if (!osc ||
!lfo) continue`). `v` is the voice index of the first pair of `l`. -/
def applyDetune (multiplier : ℝ) (rf rr : ℕ → ℝ) : ℕ → List OscNode → List OscNode
  | _, [] => []
  | _, [o] => [o]
  | v, a :: b :: rest =>
    lfoUpd multiplier (rr v) a :: oscUpd multiplier (rf v) v b ::
      applyDetune multiplier rf rr (v + 1) rest

/-- `setDissonance` (lines 84-128): store the multiplier, then — only if the
context exists and oscillators are live — detune the live pairs. -/
def setDissonance (multiplier : ℝ) (rf rr : ℕ → ℝ) (s : AudioState) : AudioState :=
  let s1 := { s with currentDissonanceMultiplier := multiplier }
  if !s1.ctxCreated || s1.oscillators.isEmpty then s1
  else { s1 with oscillators := applyDetune multiplier rf rr 0 s1.oscillators }

/-- `osc.disconnect()` on a node: the Web Audio call fails (throws) when the
node is already disconnected. -/
def disconnectOsc (o : OscNode) : Except String OscNode :=
  if o.connected then Except.ok { o with connected := false }
  else Except.error "InvalidAccessError"

/-- The `try { osc.stop(); osc.disconnect(); } catch (e) { /* ignore */ }`
of `stopAll` (lines 135-140): a disconnection failure is swallowed. -/
def tryDisconnectOsc (o : OscNode) : OscNode :=
  match disconnectOsc o with
  | Except.ok o' => o'
  | Except.error _ => o

/-- `node.disconnect()` on an `activeNodes` entry. -/
def disconnectNode (n : AudioNode) : Except String AudioNode :=
  if n.connected then Except.ok { n with connected := false }
  else Except.error "InvalidAccessError"

/-- The `try { node.disconnect(); } catch(e) { /* ignore */ }` of `stopAll`
(lines 141-145). -/
def tryDisconnectNode (n : AudioNode) : AudioNode :=
  match disconnectNode n with
  | Except.ok n' => n'
  | Except.error _ => n

/-- `stopAll` (lines 130-149): clear the pending collision timer, stop and
disconnect every tracked node with failures swallowed, then empty the three
arrays. -/
def stopAll (s : AudioState) : AudioState :=
  let _stopped := s.oscillators.map tryDisconnectOsc
  let _released := s.activeNodes.map tryDisconnectNode
  { s with oscillators := [], activeNodes := [], baseFrequencies := [],
           collisionTimer := none }

/-- The per-voice freq (lines 198-202): `baseFreq * (1 + i * 0.5)` scaled by
`variance = 1 + rv * (inherentDissonance - 1) * currentDissonanceMultiplier`. -/
def voiceFreq (p : SynthesisProfile) (baseFreq m rv : ℝ) (i : ℕ) : ℝ :=
  baseFreq * (1 + (i : ℝ) * 0.5) * (1 + rv * (p.inherentDissonance - 1) * m)

/-- The LFO of voice `i` (lines 208-215): default sine wave, rate
`modulationSpeed * (Math.random() * 0.5 + 0.5)`, detune 0, connected. -/
def mkLfo (p : SynthesisProfile) (rl : ℝ) : OscNode :=
  { kind := OscKind.lfo, wave := Wave.sine,
    freq := p.modulationSpeed * (rl * 0.5 + 0.5), detune := 0, connected := true }

/-- The tone oscillator of voice `i` (lines 192-205): profile waveform on
even `i`, sine on odd `i` (line 196), frequency `freq`, detune 0, connected. -/
def mkTone (p : SynthesisProfile) (i : ℕ) (freq : ℝ) : OscNode :=
  { kind := OscKind.tone, wave := if i % 2 = 0 then p.waveType else Wave.sine,
    freq := freq, detune := 0, connected := true }

/-- The drone-layer loop of `playData` (lines 191-234), building voices
`i, i+1, ..., i+k-1`: per voice it pushes `[lfo, osc]` onto `oscillators`
(lines 216, 232), `[lfoGain, gain, panner]` onto `activeNodes` (lines 217,
233), and `freq` onto `baseFrequencies` (line 204). The LFO depth gain is
`50 * 5` for CRITICAL, else `50` (line 211); the envelope target is
`0.1 / oscillatorCount` (line 224); the pan is `Math.random() * 2 - 1`
(line 220). -/
def buildVoices (p : SynthesisProfile) (lvl : DebrisLevel) (baseFreq m : ℝ)
    (rnd : RandomStream) : ℕ → ℕ → List OscNode × List AudioNode × List ℝ
  | _, 0 => ([], [], [])
  | i, k + 1 =>
    let freq := voiceFreq p baseFreq m (rnd.rv i) i
    let rest := buildVoices p lvl baseFreq m rnd (i + 1) k
    (mkLfo p (rnd.rl i) :: mkTone p i freq :: rest.1,
     ⟨NodeRole.lfoGain, 50 * (if lvl = DebrisLevel.CRITICAL then 5 else 1), true⟩ ::
       ⟨NodeRole.gain, 0.1 / ((p.oscillatorCount : ℝ)), true⟩ ::
       ⟨NodeRole.panner, rnd.rp i * 2 - 1, true⟩ :: rest.2.1,
     freq :: rest.2.2)

/-- The complete voice ensemble one `playData loc` call builds, using the
stored multiplier `m`: profile from `loc.level` (line 163-188), base
frequency `100 + (latitude - 32) * 10` (line 160), voices `0 ..
oscillatorCount - 1`. -/
def sessionVoices (loc : DebrisLocation) (rnd : RandomStream) (m : ℝ) :
    List OscNode × List AudioNode × List ℝ :=
  buildVoices (profileFor loc.level) loc.level (100 + (loc.latitude - 32) * 10) m rnd 0
    (profileFor loc.level).oscillatorCount

/-- `normalized` in `startMicroCollisions` (line 288):
`Math.min(Math.max(density / 1000, 0), 1)`. -/
def normalized (density : ℝ) : ℝ := min (max (density / 1000) 0) 1

/-- `minRate` (line 292). -/
def minRate : ℝ := 0.3

/-- `maxRate` (line 293). -/
def maxRate : ℝ := 12.0

/-- `rate` (line 294): `minRate + normalized * (maxRate - minRate)` Hz. -/
def rate (density : ℝ) : ℝ := minRate + normalized density * (maxRate - minRate)

/-- `interval` (line 295): `1000 / rate` milliseconds. -/
def interval (density : ℝ) : ℝ := 1000 / rate density

/-- `startMicroCollisions` (lines 281-309): when the graph exists, run
`scheduleClick` once, which plays an untracked click and arms
`collisionTimer` for `interval * (0.5 + Math.random())` ms (lines 301-305);
the draw is `rj`. -/
def startMicroCollisions (density rj : ℝ) (s : AudioState) : AudioState :=
  if s.ctxCreated then { s with collisionTimer := some (interval density * (0.5 + rj)) }
  else s

/-- The body of `playData` after its teardown of the previous session
(lines 155-242): emit the (untracked) telemetry tick, build the voice
ensemble from the profile, reapply dissonance when the stored multiplier is
not exactly 1 (lines 236-239), then start the collision scheduler. -/
def playDataGo (loc : DebrisLocation) (rnd : RandomStream) (s : AudioState) : AudioState :=
  let b := sessionVoices loc rnd s.currentDissonanceMultiplier
  let s2 := { s with oscillators := b.1, activeNodes := b.2.1, baseFrequencies := b.2.2 }
  let s3 := if s2.currentDissonanceMultiplier ≠ 1 then
      setDissonance s2.currentDissonanceMultiplier rnd.rf rnd.rr s2
    else s2
  startMicroCollisions loc.density rnd.rj s3

/-- `playData` (lines 151-243): a no-op without a graph (line 152),
otherwise `stopAll` the previous session (line 153) and build the new one. -/
def playData (loc : DebrisLocation) (rnd : RandomStream) (s : AudioState) : AudioState :=
  if s.ctxCreated then playDataGo loc rnd (stopAll s) else s

/-- The state before `initialize()` has completed, as reachable from
`initialState` by control calls: no graph, no tracked nodes, no timer. -/
def Uninit (s : AudioState) : Prop :=
  s.ctxCreated = false ∧ s.oscillators = [] ∧ s.activeNodes = [] ∧
    s.baseFrequencies = [] ∧ s.collisionTimer = none

/-- The signature of an oscillator node: its creation kind and wave type. -/
def sig (o : OscNode) : OscKind × Wave := (o.kind, o.wave)

/-- The kind/wave signatures of the `oscillators` array a `buildVoices` run
produces for voices `i, ..., i+k-1`. -/
def pairSigs (p : SynthesisProfile) : ℕ → ℕ → List (OscKind × Wave)
  | _, 0 => []
  | i, k + 1 =>
    (OscKind.lfo, Wave.sine) ::
      (OscKind.tone, if i % 2 = 0 then p.waveType else Wave.sine) :: pairSigs p (i + 1) k

/-- A ready (post-`initialize`) engine state with no live session. -/
def readyState : AudioState := initService initialState

/-- A deterministic stand-in for the random streams (all draws 0). -/
def zeroRnd : RandomStream := ⟨fun _ => 0, fun _ => 0, fun _ => 0, fun _ => 0, fun _ => 0, 0⟩

/-- Pelican State Beach (`src/constants.ts`): latitude 41.985, density 15, LOW. -/
def lowLoc : DebrisLocation := ⟨41.985, 15, DebrisLevel.LOW⟩

/-- Baker Beach (`src/constants.ts`): latitude 37.7936, density 120, MODERATE. -/
def modLoc : DebrisLocation := ⟨37.7936, 120, DebrisLevel.MODERATE⟩

end

/-! ## Structural lemmas about the voice ensemble -/

theorem sig_lfoUpd (m r : ℝ) (o : OscNode) : sig (lfoUpd m r o) = sig o := by
  unfold lfoUpd
  split <;> rfl

theorem sig_oscUpd (m r : ℝ) (v : ℕ) (o : OscNode) : sig (oscUpd m r v o) = sig o := rfl

theorem detune_lfoUpd (m r : ℝ) (o : OscNode) : (lfoUpd m r o).detune = o.detune := by
  unfold lfoUpd
  split <;> rfl

theorem kind_oscUpd (m r : ℝ) (v : ℕ) (o : OscNode) :
    (oscUpd m r v o).kind = o.kind ∧ (oscUpd m r v o).wave = o.wave ∧
      (oscUpd m r v o).freq = o.freq := ⟨rfl, rfl, rfl⟩

theorem sig_applyDetune (m : ℝ) (rf rr : ℕ → ℝ) :
    ∀ (v : ℕ) (l : List OscNode), (applyDetune m rf rr v l).map sig = l.map sig
  | _, [] => rfl
  | _, [_] => rfl
  | v, a :: b :: rest => by
    simp only [applyDetune, List.map_cons, sig_lfoUpd, sig_oscUpd,
      sig_applyDetune m rf rr (v + 1) rest]

theorem length_applyDetune (m : ℝ) (rf rr : ℕ → ℝ) (v : ℕ) (l : List OscNode) :
    (applyDetune m rf rr v l).length = l.length := by
  have h := congrArg List.length (sig_applyDetune m rf rr v l)
  simpa using h

theorem sig_buildVoices (p : SynthesisProfile) (lvl : DebrisLevel) (bf m : ℝ)
    (rnd : RandomStream) :
    ∀ (k i : ℕ), ((buildVoices p lvl bf m rnd i k).1).map sig = pairSigs p i k := by
  intro k
  induction k with
  | zero => intro i; rfl
  | succ k ih =>
    intro i
    simp only [buildVoices, pairSigs, List.map_cons, ih]
    rfl

theorem length_pairSigs (p : SynthesisProfile) :
    ∀ (k i : ℕ), (pairSigs p i k).length = 2 * k := by
  intro k
  induction k with
  | zero => intro i; rfl
  | succ k ih =>
    intro i
    simp only [pairSigs, List.length_cons, ih]
    omega

theorem pairSigs_get (p : SynthesisProfile) :
    ∀ (j i k : ℕ), j < k →
      (pairSigs p i k)[2 * j]? = some (OscKind.lfo, Wave.sine) ∧
        (pairSigs p i k)[2 * j + 1]? =
          some (OscKind.tone, if (i + j) % 2 = 0 then p.waveType else Wave.sine) := by
  intro j
  induction j with
  | zero =>
    intro i k hk
    match k, hk with
    | k + 1, _ => simp [pairSigs]
  | succ j ih =>
    intro i k hk
    match k, hk with
    | k + 1, hk =>
      rw [show 2 * (j + 1) = 2 * j + 1 + 1 from by ring]
      simp only [pairSigs, List.getElem?_cons_succ]
      have := ih (i + 1) k (by omega)
      rw [show i + 1 + j = i + (j + 1) from by omega] at this
      exact this

theorem tone_get_buildVoices (p : SynthesisProfile) (lvl : DebrisLevel) (bf m : ℝ)
    (rnd : RandomStream) :
    ∀ (j i k : ℕ), j < k →
      ((buildVoices p lvl bf m rnd i k).1)[2 * j + 1]? =
        some (mkTone p (i + j) (voiceFreq p bf m (rnd.rv (i + j)) (i + j))) := by
  intro j
  induction j with
  | zero =>
    intro i k hk
    match k, hk with
    | k + 1, _ => simp [buildVoices]
  | succ j ih =>
    intro i k hk
    match k, hk with
    | k + 1, hk =>
      rw [show 2 * (j + 1) + 1 = 2 * j + 1 + 1 + 1 from by ring]
      simp only [buildVoices, List.getElem?_cons_succ]
      have := ih (i + 1) k (by omega)
      rw [show i + 1 + j = i + (j + 1) from by omega] at this
      exact this

theorem freq_get_buildVoices (p : SynthesisProfile) (lvl : DebrisLevel) (bf m : ℝ)
    (rnd : RandomStream) :
    ∀ (j i k : ℕ), j < k →
      ((buildVoices p lvl bf m rnd i k).2.2)[j]? =
        some (voiceFreq p bf m (rnd.rv (i + j)) (i + j)) := by
  intro j
  induction j with
  | zero =>
    intro i k hk
    match k, hk with
    | k + 1, _ => simp [buildVoices]
  | succ j ih =>
    intro i k hk
    match k, hk with
    | k + 1, hk =>
      simp only [buildVoices, List.getElem?_cons_succ]
      have := ih (i + 1) k (by omega)
      rw [show i + 1 + j = i + (j + 1) from by omega] at this
      exact this

theorem detune_buildVoices (p : SynthesisProfile) (lvl : DebrisLevel) (bf m : ℝ)
    (rnd : RandomStream) :
    ∀ (k i : ℕ), ∀ o ∈ (buildVoices p lvl bf m rnd i k).1, o.detune = 0 := by
  intro k
  induction k with
  | zero => intro i o ho; simp [buildVoices] at ho
  | succ k ih =>
    intro i o ho
    simp only [buildVoices, List.mem_cons] at ho
    rcases ho with h | h | h
    · rw [h]; rfl
    · rw [h]; rfl
    · exact ih (i + 1) o h

theorem tone_get_applyDetune (m : ℝ) (rf rr : ℕ → ℝ) :
    ∀ (l : List OscNode) (j v : ℕ),
      (applyDetune m rf rr v l)[2 * j + 1]? =
        (l[2 * j + 1]?).map (oscUpd m (rf (v + j)) (v + j))
  | [], j, v => by simp [applyDetune]
  | [o], j, v => by
    have h1 : ([o] : List OscNode)[2 * j + 1]? = none :=
      List.getElem?_eq_none (by simp only [List.length_cons, List.length_nil]; omega)
    simp [applyDetune, h1]
  | a :: b :: rest, j, v => by
    match j with
    | 0 => simp [applyDetune]
    | j + 1 =>
      rw [show 2 * (j + 1) + 1 = 2 * j + 1 + 1 + 1 from by ring]
      simp only [applyDetune, List.getElem?_cons_succ]
      rw [tone_get_applyDetune m rf rr rest j (v + 1)]
      rw [show v + 1 + j = v + (j + 1) from by omega]

theorem lfo_get_applyDetune (m : ℝ) (rf rr : ℕ → ℝ) :
    ∀ (l : List OscNode) (j v : ℕ), 2 * j + 1 < l.length →
      (applyDetune m rf rr v l)[2 * j]? = (l[2 * j]?).map (lfoUpd m (rr (v + j)))
  | [], j, v => by simp
  | [o], j, v => by
    intro h
    simp only [List.length_cons, List.length_nil] at h
    omega
  | a :: b :: rest, j, v => by
    match j with
    | 0 => intro _; simp [applyDetune]
    | j + 1 =>
      intro hlen
      rw [show 2 * (j + 1) = 2 * j + 1 + 1 from by ring]
      simp only [applyDetune, List.getElem?_cons_succ]
      rw [lfo_get_applyDetune m rf rr rest j (v + 1) (by simp at hlen; omega)]
      rw [show v + 1 + j = v + (j + 1) from by omega]

/-! ## State-level lemmas -/

theorem stopAll_eq (s : AudioState) :
    stopAll s = { s with oscillators := [], activeNodes := [], baseFrequencies := [],
                         collisionTimer := none } := rfl

theorem oscillatorCount_pos (lvl : DebrisLevel) : 0 < (profileFor lvl).oscillatorCount := by
  cases lvl <;> decide

theorem setDissonance_eq_of_ready (m : ℝ) (rf rr : ℕ → ℝ) (s : AudioState)
    (hc : s.ctxCreated = true) (ho : s.oscillators ≠ []) :
    setDissonance m rf rr s =
      { s with currentDissonanceMultiplier := m,
               oscillators := applyDetune m rf rr 0 s.oscillators } := by
  unfold setDissonance
  rw [if_neg]
  simp only [hc, Bool.not_true, Bool.false_or, List.isEmpty_eq_false.mpr ho,
    Bool.false_eq_true, not_false_iff]

theorem cdm_setDissonance (m : ℝ) (rf rr : ℕ → ℝ) (s : AudioState) :
    (setDissonance m rf rr s).currentDissonanceMultiplier = m := by
  unfold setDissonance
  dsimp only
  split <;> rfl

theorem ctx_setDissonance (m : ℝ) (rf rr : ℕ → ℝ) (s : AudioState) :
    (setDissonance m rf rr s).ctxCreated = s.ctxCreated := by
  unfold setDissonance
  dsimp only
  split <;> rfl

theorem bf_setDissonance (m : ℝ) (rf rr : ℕ → ℝ) (s : AudioState) :
    (setDissonance m rf rr s).baseFrequencies = s.baseFrequencies := by
  unfold setDissonance
  dsimp only
  split <;> rfl

theorem timer_setDissonance (m : ℝ) (rf rr : ℕ → ℝ) (s : AudioState) :
    (setDissonance m rf rr s).collisionTimer = s.collisionTimer := by
  unfold setDissonance
  dsimp only
  split <;> rfl

theorem gain_setDissonance (m : ℝ) (rf rr : ℕ → ℝ) (s : AudioState) :
    (setDissonance m rf rr s).masterGainValue = s.masterGainValue ∧
      (setDissonance m rf rr s).filterFrequency = s.filterFrequency ∧
      (setDissonance m rf rr s).activeNodes = s.activeNodes := by
  unfold setDissonance
  dsimp only
  split <;> exact ⟨rfl, rfl, rfl⟩

theorem startMicro_fields (d rj : ℝ) (s : AudioState) :
    (startMicroCollisions d rj s).oscillators = s.oscillators ∧
      (startMicroCollisions d rj s).activeNodes = s.activeNodes ∧
      (startMicroCollisions d rj s).baseFrequencies = s.baseFrequencies ∧
      (startMicroCollisions d rj s).currentDissonanceMultiplier =
        s.currentDissonanceMultiplier ∧
      (startMicroCollisions d rj s).ctxCreated = s.ctxCreated ∧
      (startMicroCollisions d rj s).masterGainValue = s.masterGainValue ∧
      (startMicroCollisions d rj s).filterFrequency = s.filterFrequency := by
  unfold startMicroCollisions
  split <;> exact ⟨rfl, rfl, rfl, rfl, rfl, rfl, rfl⟩

theorem timer_startMicro (d rj : ℝ) (s : AudioState) (hc : s.ctxCreated = true) :
    (startMicroCollisions d rj s).collisionTimer = some (interval d * (0.5 + rj)) := by
  unfold startMicroCollisions
  rw [if_pos hc]

theorem cdm_playDataGo (loc : DebrisLocation) (rnd : RandomStream) (s : AudioState) :
    (playDataGo loc rnd s).currentDissonanceMultiplier = s.currentDissonanceMultiplier := by
  unfold playDataGo
  dsimp only
  rw [(startMicro_fields _ _ _).2.2.2.1]
  split
  · rw [cdm_setDissonance]
  · rfl

theorem ctx_playDataGo (loc : DebrisLocation) (rnd : RandomStream) (s : AudioState) :
    (playDataGo loc rnd s).ctxCreated = s.ctxCreated := by
  unfold playDataGo
  dsimp only
  rw [(startMicro_fields _ _ _).2.2.2.2.1]
  split
  · rw [ctx_setDissonance]
  · rfl

theorem gain_playDataGo (loc : DebrisLocation) (rnd : RandomStream) (s : AudioState) :
    (playDataGo loc rnd s).masterGainValue = s.masterGainValue ∧
      (playDataGo loc rnd s).filterFrequency = s.filterFrequency := by
  unfold playDataGo
  dsimp only
  rw [(startMicro_fields _ _ _).2.2.2.2.2.1, (startMicro_fields _ _ _).2.2.2.2.2.2]
  split
  · rw [(gain_setDissonance _ _ _ _).1, (gain_setDissonance _ _ _ _).2.1]
    exact ⟨rfl, rfl⟩
  · exact ⟨rfl, rfl⟩

theorem length_sessionVoices (loc : DebrisLocation) (rnd : RandomStream) (m : ℝ) :
    (sessionVoices loc rnd m).1.length = 2 * (profileFor loc.level).oscillatorCount := by
  have h := congrArg List.length
    (sig_buildVoices (profileFor loc.level) loc.level (100 + (loc.latitude - 32) * 10) m rnd
      (profileFor loc.level).oscillatorCount 0)
  rw [length_pairSigs] at h
  unfold sessionVoices
  simpa using h

theorem sessionVoices_ne_nil (loc : DebrisLocation) (rnd : RandomStream) (m : ℝ) :
    (sessionVoices loc rnd m).1 ≠ [] := by
  intro h
  have hl := length_sessionVoices loc rnd m
  rw [h] at hl
  have := oscillatorCount_pos loc.level
  simp at hl
  omega

theorem osc_setDissonance (m : ℝ) (rf rr : ℕ → ℝ) (s : AudioState) :
    (setDissonance m rf rr s).oscillators =
      if s.ctxCreated && !s.oscillators.isEmpty then applyDetune m rf rr 0 s.oscillators
      else s.oscillators := by
  unfold setDissonance
  dsimp only
  cases hc : s.ctxCreated <;> cases he : s.oscillators.isEmpty <;> simp [hc, he]

theorem osc_playDataGo (loc : DebrisLocation) (rnd : RandomStream) (s : AudioState)
    (hc : s.ctxCreated = true) :
    (playDataGo loc rnd s).oscillators =
      if s.currentDissonanceMultiplier ≠ 1 then
        applyDetune s.currentDissonanceMultiplier rnd.rf rnd.rr 0
          (sessionVoices loc rnd s.currentDissonanceMultiplier).1
      else (sessionVoices loc rnd s.currentDissonanceMultiplier).1 := by
  unfold playDataGo
  dsimp only
  rw [(startMicro_fields _ _ _).1]
  split
  · rw [osc_setDissonance]
    have he : ((sessionVoices loc rnd s.currentDissonanceMultiplier).1).isEmpty = false := by
      rw [List.isEmpty_eq_false]
      exact sessionVoices_ne_nil loc rnd _
    simp [hc, he]
  · rfl

theorem bf_playDataGo (loc : DebrisLocation) (rnd : RandomStream) (s : AudioState) :
    (playDataGo loc rnd s).baseFrequencies =
      (sessionVoices loc rnd s.currentDissonanceMultiplier).2.2 := by
  unfold playDataGo
  dsimp only
  rw [(startMicro_fields _ _ _).2.2.1]
  split
  · rw [bf_setDissonance]
  · rfl

theorem timer_playDataGo (loc : DebrisLocation) (rnd : RandomStream) (s : AudioState)
    (hc : s.ctxCreated = true) :
    (playDataGo loc rnd s).collisionTimer =
      some (interval loc.density * (0.5 + rnd.rj)) := by
  unfold playDataGo
  dsimp only
  refine timer_startMicro _ _ _ ?_
  split
  · rw [ctx_setDissonance]; exact hc
  · exact hc

theorem sig_playData (loc : DebrisLocation) (rnd : RandomStream) (s : AudioState)
    (hc : s.ctxCreated = true) :
    (playData loc rnd s).oscillators.map sig =
      pairSigs (profileFor loc.level) 0 (profileFor loc.level).oscillatorCount := by
  unfold playData
  rw [if_pos hc]
  rw [osc_playDataGo loc rnd (stopAll s) (by rw [stopAll_eq]; exact hc)]
  split
  · rw [sig_applyDetune]
    exact sig_buildVoices _ _ _ _ _ _ _
  · exact sig_buildVoices _ _ _ _ _ _ _

theorem length_osc_playData (loc : DebrisLocation) (rnd : RandomStream) (s : AudioState)
    (hc : s.ctxCreated = true) :
    (playData loc rnd s).oscillators.length = 2 * (profileFor loc.level).oscillatorCount := by
  have h := congrArg List.length (sig_playData loc rnd s hc)
  rw [length_pairSigs] at h
  simpa using h

theorem cdm_playData (loc : DebrisLocation) (rnd : RandomStream) (s : AudioState) :
    (playData loc rnd s).currentDissonanceMultiplier = s.currentDissonanceMultiplier := by
  unfold playData
  split
  · rw [cdm_playDataGo, stopAll_eq]
  · rfl

theorem ctx_playData (loc : DebrisLocation) (rnd : RandomStream) (s : AudioState) :
    (playData loc rnd s).ctxCreated = s.ctxCreated := by
  unfold playData
  split
  · rw [ctx_playDataGo, stopAll_eq]
  · rfl

theorem stopAll_playDataGo (loc : DebrisLocation) (rnd : RandomStream) (s : AudioState) :
    stopAll (playDataGo loc rnd s) = stopAll s := by
  rw [stopAll_eq, stopAll_eq]
  ext1
  · rw [ctx_playDataGo]
  · rw [(gain_playDataGo loc rnd s).1]
  · rw [(gain_playDataGo loc rnd s).2]
  · rfl
  · rfl
  · rfl
  · rfl
  · rw [cdm_playDataGo]

theorem stopAll_playData (loc : DebrisLocation) (rnd : RandomStream) (s : AudioState) :
    stopAll (playData loc rnd s) = stopAll s := by
  unfold playData
  split
  · rw [stopAll_playDataGo]
    rfl
  · rfl

theorem playData_eq_of_ctx (loc : DebrisLocation) (rnd : RandomStream) (s : AudioState)
    (hc : s.ctxCreated = true) : playData loc rnd s = playDataGo loc rnd (stopAll s) := by
  unfold playData
  rw [if_pos hc]

theorem playData_eq_of_not_ctx (loc : DebrisLocation) (rnd : RandomStream) (s : AudioState)
    (hc : s.ctxCreated = false) : playData loc rnd s = s := by
  unfold playData
  rw [hc]
  simp

theorem playData_playData (loc1 loc2 : DebrisLocation) (rnd1 rnd2 : RandomStream)
    (s : AudioState) :
    playData loc2 rnd2 (playData loc1 rnd1 s) = playData loc2 rnd2 s := by
  by_cases hc : s.ctxCreated = true
  · rw [playData_eq_of_ctx loc2 rnd2 (playData loc1 rnd1 s)
      (by rw [ctx_playData]; exact hc)]
    rw [stopAll_playData]
    rw [playData_eq_of_ctx loc2 rnd2 s hc]
  · have hc' : s.ctxCreated = false := by
      cases h : s.ctxCreated
      · rfl
      · exact absurd h hc
    rw [playData_eq_of_not_ctx loc1 rnd1 s hc']

theorem bf_playData (loc : DebrisLocation) (rnd : RandomStream) (s : AudioState)
    (hc : s.ctxCreated = true) (i : ℕ) (hi : i < (profileFor loc.level).oscillatorCount) :
    (playData loc rnd s).baseFrequencies[i]? =
      some (voiceFreq (profileFor loc.level) (100 + (loc.latitude - 32) * 10)
        s.currentDissonanceMultiplier (rnd.rv i) i) := by
  unfold playData
  rw [if_pos hc]
  rw [bf_playDataGo]
  rw [stopAll_eq]
  unfold sessionVoices
  have h := freq_get_buildVoices (profileFor loc.level) loc.level
    (100 + (loc.latitude - 32) * 10) s.currentDissonanceMultiplier rnd i 0
    (profileFor loc.level).oscillatorCount hi
  simpa using h

theorem detune_playData_of_one (loc : DebrisLocation) (rnd : RandomStream) (s : AudioState)
    (hc : s.ctxCreated = true) (hm : s.currentDissonanceMultiplier = 1) :
    ∀ o ∈ (playData loc rnd s).oscillators, o.detune = 0 := by
  unfold playData
  rw [if_pos hc]
  rw [osc_playDataGo loc rnd (stopAll s) (by rw [stopAll_eq]; exact hc)]
  rw [stopAll_eq]
  rw [if_neg (by simpa using hm)]
  intro o ho
  exact detune_buildVoices _ _ _ _ _ _ _ o ho

theorem detune_playData_of_ne_one (loc : DebrisLocation) (rnd : RandomStream)
    (s : AudioState) (hc : s.ctxCreated = true) (hm : s.currentDissonanceMultiplier ≠ 1)
    (j : ℕ) (hj : j < (profileFor loc.level).oscillatorCount) :
    ((playData loc rnd s).oscillators.map OscNode.detune)[2 * j + 1]? =
      some (detuneTarget s.currentDissonanceMultiplier j (rnd.rf j)) := by
  unfold playData
  rw [if_pos hc]
  rw [osc_playDataGo loc rnd (stopAll s) (by rw [stopAll_eq]; exact hc)]
  rw [stopAll_eq]
  rw [if_pos (by simpa using hm)]
  rw [List.getElem?_map]
  rw [tone_get_applyDetune]
  unfold sessionVoices
  rw [tone_get_buildVoices _ _ _ _ _ _ _ _ hj]
  simp [oscUpd]

theorem tone_get_playData (loc : DebrisLocation) (rnd : RandomStream) (s : AudioState)
    (hc : s.ctxCreated = true) (j : ℕ) (hj : j < (profileFor loc.level).oscillatorCount) :
    ((playData loc rnd s).oscillators.map sig)[2 * j + 1]? =
      some (OscKind.tone, if j % 2 = 0 then (profileFor loc.level).waveType else Wave.sine) := by
  rw [sig_playData loc rnd s hc]
  have h := (pairSigs_get (profileFor loc.level) j 0 (profileFor loc.level).oscillatorCount hj).2
  simpa using h

/-! ## Numeric lemmas -/

theorem rpow_two_point_five (m : ℝ) (hm : 0 < m) :
    m ^ (2.5 : ℝ) = m ^ 2 * Real.sqrt m := by
  rw [show (2.5 : ℝ) = 2 + 1 / 2 from by norm_num, Real.rpow_add hm, Real.rpow_two,
    ← Real.sqrt_eq_rpow]

theorem sqrt_one_point_five_lt : Real.sqrt 1.5 < 1.23 :=
  (Real.sqrt_lt' (by norm_num)).mpr (by norm_num)

theorem sqrt_one_point_five_gt : (1.22 : ℝ) < Real.sqrt 1.5 :=
  (Real.lt_sqrt (by norm_num)).mpr (by norm_num)

theorem sqrt_two_point_five_gt : (1.58 : ℝ) < Real.sqrt 2.5 :=
  (Real.lt_sqrt (by norm_num)).mpr (by norm_num)

theorem intensity_one : intensity 1 = 0 := by
  unfold intensity
  rw [Real.one_rpow]
  norm_num

theorem intensity_one_point_five_bounds :
    0 ≤ intensity 1.5 ∧ intensity 1.5 ≤ 1.77 := by
  unfold intensity
  rw [rpow_two_point_five 1.5 (by norm_num)]
  constructor
  · nlinarith [sqrt_one_point_five_gt]
  · nlinarith [sqrt_one_point_five_lt]

theorem intensity_two_point_five_lb : (8.87 : ℝ) ≤ intensity 2.5 := by
  unfold intensity
  rw [rpow_two_point_five 2.5 (by norm_num)]
  nlinarith [sqrt_two_point_five_gt]

theorem detuneTarget_eq (m : ℝ) (v : ℕ) (r : ℝ) :
    detuneTarget m v r = intensity m * (((v : ℝ) + 0.5) * 50 + (r * 20 - 10)) := by
  unfold detuneTarget detuneAmount randomFlux baseDetuneSpread
  ring

theorem detuneTarget_nonneg (m : ℝ) (v : ℕ) (r : ℝ) (hr : 0 ≤ r)
    (hI : 0 ≤ intensity m) : 0 ≤ detuneTarget m v r := by
  rw [detuneTarget_eq]
  have hv : (0 : ℝ) ≤ (v : ℝ) := Nat.cast_nonneg v
  nlinarith

theorem detuneTarget_compare (v : ℕ) (f1 f2 : ℝ) (h1 : 0 ≤ f1) (h1' : f1 ≤ 1)
    (h2 : 0 ≤ f2) (h2' : f2 ≤ 1) :
    |detuneTarget 1.5 v f1| < |detuneTarget 2.5 v f2| := by
  have hI1 := intensity_one_point_five_bounds
  have hI2 := intensity_two_point_five_lb
  rw [abs_of_nonneg (detuneTarget_nonneg 1.5 v f1 h1 hI1.1),
    abs_of_nonneg (detuneTarget_nonneg 2.5 v f2 h2 (by linarith))]
  rw [detuneTarget_eq, detuneTarget_eq]
  have hv : (0 : ℝ) ≤ (v : ℝ) := Nat.cast_nonneg v
  have key1 : intensity 1.5 * (((v : ℝ) + 0.5) * 50 + (f1 * 20 - 10)) ≤
      intensity 1.5 * (((v : ℝ) + 0.5) * 50 + 10) := by
    have : f1 * 20 - 10 ≤ 10 := by linarith
    nlinarith [hI1.1]
  have key2 : intensity 2.5 * (((v : ℝ) + 0.5) * 50 - 10) ≤
      intensity 2.5 * (((v : ℝ) + 0.5) * 50 + (f2 * 20 - 10)) := by
    have : -10 ≤ f2 * 20 - 10 := by linarith
    nlinarith
  have key3 : intensity 1.5 * (((v : ℝ) + 0.5) * 50 + 10) <
      intensity 2.5 * (((v : ℝ) + 0.5) * 50 - 10) := by
    have e1 : intensity 1.5 * (((v : ℝ) + 0.5) * 50 + 10) ≤
        1.77 * (((v : ℝ) + 0.5) * 50 + 10) :=
      mul_le_mul_of_nonneg_right hI1.2 (by nlinarith)
    have e2 : (8.87 : ℝ) * (((v : ℝ) + 0.5) * 50 - 10) ≤
        intensity 2.5 * (((v : ℝ) + 0.5) * 50 - 10) :=
      mul_le_mul_of_nonneg_right hI2 (by nlinarith)
    nlinarith
  linarith

theorem newLfoRate_bounds (m r : ℝ) (hr : 0 ≤ r) (hr' : r ≤ 1) (hm : 1.2 < m) :
    0.5 ≤ newLfoRate m r ∧ newLfoRate m r ≤ 0.5 + 8 * (m - 1) := by
  unfold newLfoRate
  constructor
  · nlinarith
  · nlinarith

theorem normalized_of_mem (d : ℝ) (h0 : 0 ≤ d) (h1 : d ≤ 1000) :
    normalized d = d / 1000 := by
  unfold normalized
  rw [max_eq_left (by positivity), min_eq_left (by rw [div_le_one] <;> norm_num; linarith)]

theorem normalized_of_ge (d : ℝ) (h : 1000 ≤ d) : normalized d = 1 := by
  unfold normalized
  rw [max_eq_left (by positivity), min_eq_right (by rw [le_div_iff] <;> norm_num; linarith)]

theorem rate_pos (d : ℝ) : 0 < rate d := by
  unfold rate minRate maxRate normalized
  have h1 : (0 : ℝ) ≤ min (max (d / 1000) 0) 1 := le_min (le_max_right _ 0) (by norm_num)
  nlinarith

theorem interval_zero : interval 0 = 1000 / 0.3 := by
  unfold interval rate minRate maxRate
  rw [normalized_of_mem 0 le_rfl (by norm_num)]
  norm_num

theorem interval_thousand : interval 1000 = 1000 / 12 := by
  unfold interval rate minRate maxRate
  rw [normalized_of_ge 1000 le_rfl]
  norm_num

theorem interval_clamp (d : ℝ) (h : 1000 ≤ d) : interval d = interval 1000 := by
  unfold interval rate
  rw [normalized_of_ge d h, normalized_of_ge 1000 le_rfl]

theorem interval_strict_anti (d1 d2 : ℝ) (h0 : 0 ≤ d1) (h12 : d1 < d2)
    (h2 : d2 ≤ 1000) : interval d2 < interval d1 := by
  unfold interval
  rw [div_lt_div_iff_of_pos_left (by norm_num) (rate_pos d2) (rate_pos d1)]
  unfold rate minRate maxRate
  rw [normalized_of_mem d1 h0 (by linarith), normalized_of_mem d2 (by linarith) h2]
  have : d1 / 1000 < d2 / 1000 := by linarith
  nlinarith

theorem timer_playData (loc : DebrisLocation) (rnd : RandomStream) (s : AudioState)
    (hc : s.ctxCreated = true) :
    (playData loc rnd s).collisionTimer = some (interval loc.density * (0.5 + rnd.rj)) := by
  rw [playData_eq_of_ctx loc rnd s hc]
  exact timer_playDataGo loc rnd (stopAll s) (by rw [stopAll_eq]; exact hc)

theorem setDissonance_pair_get (s : AudioState) (m : ℝ) (rf rr : ℕ → ℝ) (j : ℕ)
    (hc : s.ctxCreated = true) (hlen : 2 * j + 1 < s.oscillators.length) :
    (setDissonance m rf rr s).oscillators[2 * j + 1]? =
        (s.oscillators[2 * j + 1]?).map (oscUpd m (rf j) j)
      ∧ (setDissonance m rf rr s).oscillators[2 * j]? =
        (s.oscillators[2 * j]?).map (lfoUpd m (rr j)) := by
  have hne : s.oscillators ≠ [] := by
    intro h
    rw [h] at hlen
    simp at hlen
  rw [setDissonance_eq_of_ready m rf rr s hc hne]
  constructor
  · show (applyDetune m rf rr 0 s.oscillators)[2 * j + 1]? = _
    rw [tone_get_applyDetune]
    norm_num
  · show (applyDetune m rf rr 0 s.oscillators)[2 * j]? = _
    rw [lfo_get_applyDetune m rf rr s.oscillators j 0 hlen]
    norm_num

/-! ## The claims -/

/-- C2: for every density `d`, the collision scheduler computes
`normalized = clamp(d/1000, 0, 1)`, `rate = 0.3 + normalized * (12.0 - 0.3)`
Hz and `baseInterval = 1000 / rate` ms; the base interval is strictly
decreasing in density over `[0, 1000]`, equals `1000 / 0.3` ms at density 0
and `1000 / 12` ms at density 1000, and every density at or above 1000
yields the same interval as density 1000; the armed timer delay is the base
interval times the jitter factor. -/
theorem claim_C2 :
    (∀ d : ℝ, interval d = 1000 / (0.3 + normalized d * (12.0 - 0.3)))
    ∧ interval 0 = 1000 / 0.3
    ∧ interval 1000 = 1000 / 12
    ∧ (∀ d : ℝ, 1000 ≤ d → interval d = interval 1000)
    ∧ (∀ d1 d2 : ℝ, 0 ≤ d1 → d1 < d2 → d2 ≤ 1000 → interval d2 < interval d1)
    ∧ (∀ (s : AudioState) (d rj : ℝ), s.ctxCreated = true →
        (startMicroCollisions d rj s).collisionTimer = some (interval d * (0.5 + rj))) :=
  ⟨fun _ => rfl, interval_zero, interval_thousand, interval_clamp, interval_strict_anti,
   fun s d rj hc => timer_startMicro d rj s hc⟩

/-- C2 witness: density 1500 clamps to the density-1000 interval, and the
interval at density 1000 is shorter than at density 0. -/
theorem claim_C2_witness :
    interval 1500 = interval 1000 ∧ interval 1000 < interval 0 :=
  ⟨claim_C2.2.2.2.1 1500 (by norm_num),
   claim_C2.2.2.2.2.1 0 1000 le_rfl (by norm_num) le_rfl⟩

/-- C4: `setFilterFrequency v` targets `100 * (20000 / 100) ^ v` Hz; the
mapping sends 0 to 100 Hz and 1 to 20000 Hz and is strictly increasing on
`[0, 1]`. -/
theorem claim_C4 :
    (∀ (v : ℝ) (s : AudioState), s.ctxCreated = true →
        (setFilterFrequency v s).filterFrequency = 100 * (20000 / 100) ^ v)
    ∧ filterFreqOf 0 = 100
    ∧ filterFreqOf 1 = 20000
    ∧ (∀ a b : ℝ, 0 ≤ a → a < b → b ≤ 1 → filterFreqOf a < filterFreqOf b) := by
  refine ⟨?_, ?_, ?_, ?_⟩
  · intro v s hc
    unfold setFilterFrequency
    rw [if_pos hc]
    rfl
  · unfold filterFreqOf
    rw [Real.rpow_zero]
    norm_num
  · unfold filterFreqOf
    rw [Real.rpow_one]
    norm_num
  · intro a b _ hab _
    unfold filterFreqOf
    rw [show (20000 / 100 : ℝ) = 200 from by norm_num]
    exact mul_lt_mul_of_pos_left
      ((Real.rpow_lt_rpow_left_iff (show (1 : ℝ) < 200 from by norm_num)).mpr hab)
      (by norm_num)

/-- C4 witness: on a ready engine, `setFilterFrequency 0` targets
`100 * (20000 / 100) ^ 0`, and the cutoff at 0 is below the cutoff at 1. -/
theorem claim_C4_witness :
    (setFilterFrequency 0 readyState).filterFrequency = 100 * (20000 / 100) ^ (0 : ℝ)
    ∧ filterFreqOf 0 < filterFreqOf 1 :=
  ⟨claim_C4.1 0 readyState rfl, claim_C4.2.2.2 0 1 le_rfl zero_lt_one le_rfl⟩

/-- C6: `stopAll` always leaves no live voices (empty `oscillators` and
`activeNodes`), no stored base frequencies and no pending collision timer,
for every prior state; it is idempotent; and disconnecting an
already-disconnected node fails with an error that `stopAll`'s try/catch
swallows, leaving the node untouched rather than propagating the failure. -/
theorem claim_C6 :
    (∀ s : AudioState, (stopAll s).oscillators = [] ∧ (stopAll s).activeNodes = []
        ∧ (stopAll s).baseFrequencies = [] ∧ (stopAll s).collisionTimer = none)
    ∧ (∀ s : AudioState, stopAll (stopAll s) = stopAll s)
    ∧ (∀ o : OscNode, o.connected = false →
        disconnectOsc o = Except.error "InvalidAccessError" ∧ tryDisconnectOsc o = o)
    ∧ (∀ n : AudioNode, n.connected = false →
        disconnectNode n = Except.error "InvalidAccessError" ∧ tryDisconnectNode n = n) := by
  refine ⟨fun s => ⟨rfl, rfl, rfl, rfl⟩, fun s => rfl, ?_, ?_⟩
  · intro o ho
    have h1 : disconnectOsc o = Except.error "InvalidAccessError" := by
      unfold disconnectOsc
      rw [ho]
      simp
    exact ⟨h1, by unfold tryDisconnectOsc; rw [h1]⟩
  · intro n hn
    have h1 : disconnectNode n = Except.error "InvalidAccessError" := by
      unfold disconnectNode
      rw [hn]
      simp
    exact ⟨h1, by unfold tryDisconnectNode; rw [h1]⟩

/-- C6 witness: stopping an idle engine twice equals stopping it once, and a
disconnected oscillator node survives the swallowed disconnection failure. -/
theorem claim_C6_witness :
    stopAll (stopAll initialState) = stopAll initialState
    ∧ tryDisconnectOsc ⟨OscKind.tone, Wave.sine, 0, 0, false⟩ =
        ⟨OscKind.tone, Wave.sine, 0, 0, false⟩ :=
  ⟨claim_C6.2.1 initialState, (claim_C6.2.2.1 ⟨OscKind.tone, Wave.sine, 0, 0, false⟩ rfl).2⟩

/-- C3: `setDissonance m` detunes the tone oscillator of the voice at
ensemble position `j` toward `(j + 0.5) * 50 * (m^2.5 - 1)` plus a random
flux in `[-10, 10]` scaled by `(m^2.5 - 1)`, pairing the array two at a
time; it randomizes the paired modulator's rate to a value in
`[0.5, 0.5 + 8 * (m - 1)]` exactly when `m > 1.2` and leaves it untouched
when `m ≤ 1.2`; `setDissonance 1.0` yields exactly zero detune and
`setDissonance 2.5` yields strictly larger detune magnitude than
`setDissonance 1.5` at every voice index for all random draws. -/
theorem claim_C3 :
    (∀ (s : AudioState) (m : ℝ) (rf rr : ℕ → ℝ) (j : ℕ), s.ctxCreated = true →
        2 * j + 1 < s.oscillators.length →
        (setDissonance m rf rr s).oscillators[2 * j + 1]? =
            (s.oscillators[2 * j + 1]?).map (oscUpd m (rf j) j)
          ∧ (setDissonance m rf rr s).oscillators[2 * j]? =
            (s.oscillators[2 * j]?).map (lfoUpd m (rr j)))
    ∧ (∀ (m r : ℝ) (v : ℕ) (o : OscNode),
        (oscUpd m r v o).detune =
          ((v : ℝ) + 0.5) * 50 * (m ^ (2.5 : ℝ) - 1) + (r * 20 - 10) * (m ^ (2.5 : ℝ) - 1))
    ∧ (∀ r : ℝ, 0 ≤ r → r ≤ 1 → -10 ≤ r * 20 - 10 ∧ r * 20 - 10 ≤ 10)
    ∧ (∀ (m r : ℝ) (o : OscNode),
        (1.2 < m → lfoUpd m r o = { o with freq := newLfoRate m r })
        ∧ (m ≤ 1.2 → lfoUpd m r o = o))
    ∧ (∀ (m r : ℝ), 0 ≤ r → r ≤ 1 → 1.2 < m →
        0.5 ≤ newLfoRate m r ∧ newLfoRate m r ≤ 0.5 + 8 * (m - 1))
    ∧ (∀ (v : ℕ) (r : ℝ), detuneTarget 1 v r = 0)
    ∧ (∀ (v : ℕ) (f1 f2 : ℝ), 0 ≤ f1 → f1 ≤ 1 → 0 ≤ f2 → f2 ≤ 1 →
        |detuneTarget 1.5 v f1| < |detuneTarget 2.5 v f2|) := by
  refine ⟨?_, ?_, ?_, ?_, newLfoRate_bounds, ?_, detuneTarget_compare⟩
  · intro s m rf rr j hc hlen
    exact setDissonance_pair_get s m rf rr j hc hlen
  · intro m r v o
    show detuneTarget m v r = _
    unfold detuneTarget detuneAmount randomFlux baseDetuneSpread intensity
    ring
  · intro r h0 h1
    constructor <;> linarith
  · intro m r o
    constructor
    · intro hm
      unfold lfoUpd
      rw [if_pos hm]
    · intro hm
      unfold lfoUpd
      rw [if_neg (not_lt.mpr hm)]
  · intro v r
    rw [detuneTarget_eq, intensity_one]
    ring

/-- C3 witness: at voice index 3 and extreme draws, the multiplier 2.5
detune magnitude strictly exceeds the multiplier 1.5 one, and the
multiplier 1 detune is zero. -/
theorem claim_C3_witness :
    |detuneTarget 1.5 3 0| < |detuneTarget 2.5 3 1| ∧ detuneTarget 1 3 0 = 0 :=
  ⟨claim_C3.2.2.2.2.2.2 3 0 1 le_rfl zero_le_one zero_le_one le_rfl,
   claim_C3.2.2.2.2.2.1 3 0⟩

/-- C5: every voice `i` of a `playData` session starts at frequency
`(100 + (latitude - 32) * 10) * (1 + i * 0.5)` times a variance factor
`1 + rv * (inherentDissonance - 1) * currentDissonanceMultiplier` which,
for a draw in `[0, 1]`, a nonnegative multiplier and inherent dissonance at
least 1, lies in `[1, 1 + (inherentDissonance - 1) * multiplier]`; the
inherent dissonance table is 1.001 / 1.02 / 1.10 / 1.25. -/
theorem claim_C5 :
    (∀ (loc : DebrisLocation) (rnd : RandomStream) (s : AudioState) (i : ℕ),
        s.ctxCreated = true → i < (profileFor loc.level).oscillatorCount →
        (playData loc rnd s).baseFrequencies[i]? =
          some ((100 + (loc.latitude - 32) * 10) * (1 + (i : ℝ) * 0.5) *
            (1 + rnd.rv i * ((profileFor loc.level).inherentDissonance - 1) *
              s.currentDissonanceMultiplier)))
    ∧ (∀ r m d : ℝ, 0 ≤ r → r ≤ 1 → 0 ≤ m → 1 ≤ d →
        1 ≤ 1 + r * (d - 1) * m ∧ 1 + r * (d - 1) * m ≤ 1 + (d - 1) * m)
    ∧ ((profileFor DebrisLevel.LOW).inherentDissonance = 1.001
        ∧ (profileFor DebrisLevel.MODERATE).inherentDissonance = 1.02
        ∧ (profileFor DebrisLevel.HIGH).inherentDissonance = 1.10
        ∧ (profileFor DebrisLevel.CRITICAL).inherentDissonance = 1.25) := by
  refine ⟨?_, ?_, rfl, rfl, rfl, rfl⟩
  · intro loc rnd s i hc hi
    rw [bf_playData loc rnd s hc i hi]
    rfl
  · intro r m d hr hr' hm hd
    have ha : 0 ≤ r * (d - 1) * m := mul_nonneg (mul_nonneg hr (by linarith)) hm
    have hb : 0 ≤ (1 - r) * (d - 1) * m :=
      mul_nonneg (mul_nonneg (by linarith) (by linarith)) hm
    constructor
    · linarith
    · nlinarith

/-- C5 witness: voice 0 of a LOW session on a fresh ready engine (all draws
zero) starts at the base frequency with variance factor 1. -/
theorem claim_C5_witness :
    (playData lowLoc zeroRnd readyState).baseFrequencies[0]? =
      some ((100 + (lowLoc.latitude - 32) * 10) * (1 + ((0 : ℕ) : ℝ) * 0.5) *
        (1 + zeroRnd.rv 0 * ((profileFor lowLoc.level).inherentDissonance - 1) *
          readyState.currentDissonanceMultiplier)) :=
  claim_C5.1 lowLoc zeroRnd readyState 0 rfl (by decide)

/-- C7: `playData` twice in a row leaves exactly the second call's state;
one call on a ready engine leaves exactly one ensemble (`2 * voiceCount`
oscillator entries) and exactly one armed collision timer; when the stored
multiplier is 1 the fresh voices keep detune 0 (no reapplication), and when
it is not 1 the fresh tone oscillators carry the reapplied detune targets. -/
theorem claim_C7 :
    (∀ (loc1 loc2 : DebrisLocation) (rnd1 rnd2 : RandomStream) (s : AudioState),
        playData loc2 rnd2 (playData loc1 rnd1 s) = playData loc2 rnd2 s)
    ∧ (∀ (loc : DebrisLocation) (rnd : RandomStream) (s : AudioState), s.ctxCreated = true →
        (playData loc rnd s).oscillators.length = 2 * (profileFor loc.level).oscillatorCount
        ∧ (playData loc rnd s).collisionTimer = some (interval loc.density * (0.5 + rnd.rj)))
    ∧ (∀ (loc : DebrisLocation) (rnd : RandomStream) (s : AudioState),
        s.ctxCreated = true → s.currentDissonanceMultiplier = 1 →
        ∀ o ∈ (playData loc rnd s).oscillators, o.detune = 0)
    ∧ (∀ (loc : DebrisLocation) (rnd : RandomStream) (s : AudioState) (j : ℕ),
        s.ctxCreated = true → s.currentDissonanceMultiplier ≠ 1 →
        j < (profileFor loc.level).oscillatorCount →
        ((playData loc rnd s).oscillators.map OscNode.detune)[2 * j + 1]? =
          some (detuneTarget s.currentDissonanceMultiplier j (rnd.rf j))) :=
  ⟨playData_playData,
   fun loc rnd s hc => ⟨length_osc_playData loc rnd s hc, timer_playData loc rnd s hc⟩,
   detune_playData_of_one,
   fun loc rnd s j hc hm hj => detune_playData_of_ne_one loc rnd s hc hm j hj⟩

/-- C7 witness: playing Baker Beach right after Pelican State Beach leaves
the same state as playing Baker Beach alone. -/
theorem claim_C7_witness :
    playData modLoc zeroRnd (playData lowLoc zeroRnd readyState) =
      playData modLoc zeroRnd readyState :=
  claim_C7.1 lowLoc modLoc zeroRnd zeroRnd readyState

/-- C8 counterexample: `setDissonance 2` before `initialize()` is not a
state-preserving no-op — it records the multiplier 2 in place of 1, so the
claim that every control operation leaves the engine state unchanged fails. -/
theorem claim_C8_counterexample :
    setDissonance 2 (fun _ => 0) (fun _ => 0) initialState ≠ initialState := by
  intro h
  have h2 := congrArg AudioState.currentDissonanceMultiplier h
  rw [cdm_setDissonance] at h2
  have h3 : initialState.currentDissonanceMultiplier = 1 := rfl
  rw [h3] at h2
  norm_num at h2

/-- C8 (amended): before `initialize()` completes, every public control
operation is crash-free; `playData`, `stopAll`, `setVolume` and
`setFilterFrequency` leave the engine state unchanged, while `setDissonance`
changes nothing except recording the multiplier (and keeps the engine
uninitialized). -/
theorem claim_C8_amended :
    (∀ s : AudioState, Uninit s → ∀ v : ℝ, setVolume v s = s)
    ∧ (∀ s : AudioState, Uninit s → ∀ v : ℝ, setFilterFrequency v s = s)
    ∧ (∀ s : AudioState, Uninit s → ∀ (loc : DebrisLocation) (rnd : RandomStream),
        playData loc rnd s = s)
    ∧ (∀ s : AudioState, Uninit s → stopAll s = s)
    ∧ (∀ s : AudioState, Uninit s → ∀ (m : ℝ) (rf rr : ℕ → ℝ),
        setDissonance m rf rr s = { s with currentDissonanceMultiplier := m }
        ∧ Uninit (setDissonance m rf rr s)) := by
  refine ⟨?_, ?_, ?_, ?_, ?_⟩
  · intro s hu v
    unfold setVolume
    rw [hu.1]
    simp
  · intro s hu v
    unfold setFilterFrequency
    rw [hu.1]
    simp
  · intro s hu loc rnd
    exact playData_eq_of_not_ctx loc rnd s hu.1
  · intro s hu
    obtain ⟨h1, h2, h3, h4, h5⟩ := hu
    rw [stopAll_eq]
    ext1 <;> simp [h2, h3, h4, h5]
  · intro s hu m rf rr
    obtain ⟨h1, h2, h3, h4, h5⟩ := hu
    have he : setDissonance m rf rr s = { s with currentDissonanceMultiplier := m } := by
      unfold setDissonance
      dsimp only
      rw [h1]
      simp
    refine ⟨he, ?_⟩
    rw [he]
    exact ⟨h1, h2, h3, h4, h5⟩

/-- C8 witness: on the fresh state, `stopAll` is an exact no-op and
`setDissonance 2` changes only the stored multiplier. -/
theorem claim_C8_amended_witness :
    stopAll initialState = initialState
    ∧ setDissonance 2 (fun _ => 0) (fun _ => 0) initialState =
        { initialState with currentDissonanceMultiplier := 2 } :=
  ⟨claim_C8_amended.2.2.2.1 initialState ⟨rfl, rfl, rfl, rfl, rfl⟩,
   (claim_C8_amended.2.2.2.2 initialState ⟨rfl, rfl, rfl, rfl, rfl⟩ 2 (fun _ => 0)
     (fun _ => 0)).1⟩

/-- C1 counterexample: for a LOW-tier record the profile waveform is itself
sine, so all 3 created voices carry the profile waveform — not "exactly half
rounded down" (which would be 1 of 3).  Evaluated on a concrete LOW session. -/
theorem claim_C1_counterexample :
    (((playData lowLoc zeroRnd readyState).oscillators.map sig).countP
        (fun x => decide (x.1 = OscKind.tone ∧ x.2 = (profileFor DebrisLevel.LOW).waveType)))
      = 3
    ∧ (profileFor DebrisLevel.LOW).oscillatorCount / 2 = 1
    ∧ (3 : ℕ) ≠ 1 := by
  refine ⟨?_, by decide, by decide⟩
  rw [sig_playData lowLoc zeroRnd readyState rfl]
  decide

/-- C1 (amended): for every severity tier, `playData` creates exactly the
profile-table voice count (3/4/6/8) of tone oscillators; every even-indexed
voice uses the profile waveform and every odd-indexed voice uses sine, so
exactly half rounded UP of the voices are assigned the profile waveform —
which is exactly half for the even-count tiers (MODERATE/HIGH/CRITICAL),
while for LOW (profile waveform sine) all three voices carry it. -/
theorem claim_C1_amended :
    ∀ (loc : DebrisLocation) (rnd : RandomStream) (s : AudioState), s.ctxCreated = true →
    (((playData loc rnd s).oscillators.map sig).countP
        (fun x => decide (x.1 = OscKind.tone)) = (profileFor loc.level).oscillatorCount)
    ∧ (∀ j, j < (profileFor loc.level).oscillatorCount →
        ((playData loc rnd s).oscillators.map sig)[2 * j + 1]? =
          some (OscKind.tone,
            if j % 2 = 0 then (profileFor loc.level).waveType else Wave.sine))
    ∧ (loc.level ≠ DebrisLevel.LOW →
        ((playData loc rnd s).oscillators.map sig).countP
            (fun x => decide (x.1 = OscKind.tone ∧ x.2 = (profileFor loc.level).waveType))
          = (profileFor loc.level).oscillatorCount / 2)
    ∧ (loc.level = DebrisLevel.LOW →
        ((playData loc rnd s).oscillators.map sig).countP
            (fun x => decide (x.1 = OscKind.tone ∧ x.2 = (profileFor loc.level).waveType))
          = (profileFor loc.level).oscillatorCount) := by
  intro loc rnd s hc
  rw [sig_playData loc rnd s hc]
  rcases loc with ⟨lat, den, lvl⟩
  dsimp only
  cases lvl <;> exact ⟨by decide, by decide, by decide, by decide⟩

/-- C1 witness: a MODERATE session has 4 tone voices, of which exactly
4 / 2 = 2 carry the profile (triangle) waveform. -/
theorem claim_C1_witness :
    ((playData modLoc zeroRnd readyState).oscillators.map sig).countP
        (fun x => decide (x.1 = OscKind.tone ∧ x.2 = (profileFor modLoc.level).waveType))
      = (profileFor modLoc.level).oscillatorCount / 2 :=
  (claim_C1_amended modLoc zeroRnd readyState rfl).2.2.1 (by decide)

/-- C9: after `playData` on a ready engine the oscillator array has exactly
`2 * voiceCount` entries alternating LFO / tone (the LFO of voice `j` at
position `2j`, its tone at `2j + 1`); `setDissonance`'s pair walk preserves
kind and wave of every entry, changes no LFO's detune and changes only the
detune of tone entries; and `stopAll` empties the array. -/
theorem claim_C9 :
    (∀ (loc : DebrisLocation) (rnd : RandomStream) (s : AudioState), s.ctxCreated = true →
        (playData loc rnd s).oscillators.length = 2 * (profileFor loc.level).oscillatorCount
        ∧ (∀ j, j < (profileFor loc.level).oscillatorCount →
            ((playData loc rnd s).oscillators.map sig)[2 * j]? =
              some (OscKind.lfo, Wave.sine)
            ∧ ((playData loc rnd s).oscillators.map sig)[2 * j + 1]? =
              some (OscKind.tone,
                if j % 2 = 0 then (profileFor loc.level).waveType else Wave.sine)))
    ∧ (∀ (m : ℝ) (rf rr : ℕ → ℝ) (v : ℕ) (l : List OscNode),
        (applyDetune m rf rr v l).map sig = l.map sig)
    ∧ (∀ (m r : ℝ) (o : OscNode), (lfoUpd m r o).detune = o.detune)
    ∧ (∀ (m r : ℝ) (v : ℕ) (o : OscNode),
        (oscUpd m r v o).kind = o.kind ∧ (oscUpd m r v o).wave = o.wave
        ∧ (oscUpd m r v o).freq = o.freq)
    ∧ (∀ s : AudioState, (stopAll s).oscillators = [] ∧ (stopAll s).activeNodes = []) := by
  refine ⟨?_, sig_applyDetune, detune_lfoUpd, kind_oscUpd, fun s => ⟨rfl, rfl⟩⟩
  intro loc rnd s hc
  refine ⟨length_osc_playData loc rnd s hc, ?_⟩
  intro j hj
  rw [sig_playData loc rnd s hc]
  have h := pairSigs_get (profileFor loc.level) j 0 (profileFor loc.level).oscillatorCount hj
  constructor
  · exact h.1
  · have h2 := h.2
    rw [show 0 + j = j from by omega] at h2
    exact h2

/-- C9 witness: a LOW session on the ready engine has 6 oscillator entries,
and the first pair is an LFO followed by a tone oscillator. -/
theorem claim_C9_witness :
    (playData lowLoc zeroRnd readyState).oscillators.length =
        2 * (profileFor lowLoc.level).oscillatorCount
    ∧ ((playData lowLoc zeroRnd readyState).oscillators.map sig)[0]? =
        some (OscKind.lfo, Wave.sine) :=
  ⟨(claim_C9.1 lowLoc zeroRnd readyState rfl).1,
   ((claim_C9.1 lowLoc zeroRnd readyState rfl).2 0 (by decide)).1⟩

/-- C10: every `setDissonance` call stores its multiplier — also with no
context or no voices — and neither `stopAll` nor `playData` resets it; a
multiplier `m` stored earlier scales the random frequency variance of the
voices the next `playData` builds, triggers that call's detune reapplication
when `m ≠ 1`, and leaves the fresh voices undetuned when `m = 1`. -/
theorem claim_C10 :
    (∀ (m : ℝ) (rf rr : ℕ → ℝ) (s : AudioState),
        (setDissonance m rf rr s).currentDissonanceMultiplier = m)
    ∧ (∀ s : AudioState,
        (stopAll s).currentDissonanceMultiplier = s.currentDissonanceMultiplier)
    ∧ (∀ (loc : DebrisLocation) (rnd : RandomStream) (s : AudioState),
        (playData loc rnd s).currentDissonanceMultiplier = s.currentDissonanceMultiplier)
    ∧ (∀ (m : ℝ) (rf rr : ℕ → ℝ) (s : AudioState) (loc : DebrisLocation)
          (rnd : RandomStream) (i : ℕ), s.ctxCreated = true →
        i < (profileFor loc.level).oscillatorCount →
        (playData loc rnd (setDissonance m rf rr s)).baseFrequencies[i]? =
          some ((100 + (loc.latitude - 32) * 10) * (1 + (i : ℝ) * 0.5) *
            (1 + rnd.rv i * ((profileFor loc.level).inherentDissonance - 1) * m)))
    ∧ (∀ (m : ℝ) (rf rr : ℕ → ℝ) (s : AudioState) (loc : DebrisLocation)
          (rnd : RandomStream) (j : ℕ), s.ctxCreated = true → m ≠ 1 →
        j < (profileFor loc.level).oscillatorCount →
        ((playData loc rnd (setDissonance m rf rr s)).oscillators.map
            OscNode.detune)[2 * j + 1]? = some (detuneTarget m j (rnd.rf j)))
    ∧ (∀ (m : ℝ) (rf rr : ℕ → ℝ) (s : AudioState) (loc : DebrisLocation)
          (rnd : RandomStream), s.ctxCreated = true → m = 1 →
        ∀ o ∈ (playData loc rnd (setDissonance m rf rr s)).oscillators, o.detune = 0) := by
  refine ⟨cdm_setDissonance, fun s => rfl, cdm_playData, ?_, ?_, ?_⟩
  · intro m rf rr s loc rnd i hc hi
    have hc' : (setDissonance m rf rr s).ctxCreated = true := by
      rw [ctx_setDissonance]
      exact hc
    rw [bf_playData loc rnd _ hc' i hi, cdm_setDissonance]
    rfl
  · intro m rf rr s loc rnd j hc hm hj
    have hc' : (setDissonance m rf rr s).ctxCreated = true := by
      rw [ctx_setDissonance]
      exact hc
    have hm' : (setDissonance m rf rr s).currentDissonanceMultiplier ≠ 1 := by
      rw [cdm_setDissonance]
      exact hm
    rw [detune_playData_of_ne_one loc rnd _ hc' hm' j hj, cdm_setDissonance]
  · intro m rf rr s loc rnd hc hm
    have hc' : (setDissonance m rf rr s).ctxCreated = true := by
      rw [ctx_setDissonance]
      exact hc
    have hm' : (setDissonance m rf rr s).currentDissonanceMultiplier = 1 := by
      rw [cdm_setDissonance]
      exact hm
    exact detune_playData_of_one loc rnd _ hc' hm'

/-- C10 witness: a multiplier stored by `setDissonance` on the ready engine
is readable back, and `stopAll` keeps it. -/
theorem claim_C10_witness :
    (setDissonance 2.2 (fun _ => 0) (fun _ => 0) readyState).currentDissonanceMultiplier = 2.2
    ∧ (stopAll readyState).currentDissonanceMultiplier =
        readyState.currentDissonanceMultiplier :=
  ⟨claim_C10.1 2.2 (fun _ => 0) (fun _ => 0) readyState, claim_C10.2.1 readyState⟩

end AudioService
